import Mathlib

/-
Verification development for the notification-microservices repository.

The executable core lives in the API gateway notification routes file
(src/unnamed/part_003). Its route handlers are translated here as pure
functions over an explicit state; the helper functions at the bottom of
that file are TODO stubs, so persistence (Ledger insert, queue publish,
status update, ledger lookup) and the external collaborator calls
(user service, template service, idempotency store) are modelled as
noted on each definition. Components that have no code in the
repository at all (Retry Manager, Circuit Breaker, backoff policy,
the status transition table) are modelled from the specification.
-/

namespace Notif

/-- Notification lifecycle statuses (spec section 4.3 and the gateway
schemas in src/api-gateway/README.md). -/
inductive Status
  | pending
  | queued
  | processing
  | sent
  | delivered
  | failed
  | dead_lettered
  | skipped
  deriving DecidableEq, Repr

/-- Notification channel type, the enum of `notification_type` in the
gateway request schema. -/
inductive NType
  | email
  | push
  deriving DecidableEq, Repr

/-- User notification preferences (user-service schema `preferences`). -/
structure UserPrefs where
  email : Bool
  push : Bool
  deriving DecidableEq, Repr

/-- User record as consumed by the gateway (`getUserById` result shape,
src/unnamed/part_003 lines 417-428). -/
structure User where
  user_id : String
  name : String
  email : String
  preferences : UserPrefs
  deriving DecidableEq, Repr

/-- Template record as consumed by the gateway (`getTemplateByCode`
result shape, src/unnamed/part_003 lines 430-437). -/
structure Template where
  template_code : String
  subject : String
  content : String
  deriving DecidableEq, Repr

/-- Intake request body (gateway `notificationRequestSchema`). The
uninterpreted `variables` and `metadata` payloads are carried as
association lists of strings, under the field name `vars` because
`variables` is reserved in Lean. -/
structure IntakeRequest where
  notification_type : NType
  user_id : String
  template_code : String
  vars : List (String × String)
  request_id : String
  priority : Int
  metadata : List (String × String)
  deriving DecidableEq, Repr

/-- Notification record as written by `createNotification`
(src/unnamed/part_003 lines 156-167). -/
structure NotificationRecord where
  notification_id : String
  request_id : String
  user_id : String
  notification_type : NType
  template_code : String
  vars : List (String × String)
  priority : Int
  metadata : List (String × String)
  status : Status
  deriving DecidableEq, Repr

/-- Queue wire message as published by `queueNotification`
(src/unnamed/part_003 lines 169-178). -/
structure QueueMessage where
  notification_id : String
  notification_type : NType
  user_id : String
  template_code : String
  vars : List (String × String)
  priority : Int
  metadata : List (String × String)
  deriving DecidableEq, Repr

/-- Record returned by the idempotency check `checkExistingNotification`
(fields read at src/unnamed/part_003 lines 95-97). -/
structure ExistingRecord where
  notification_id : String
  status : Status
  created_at : Int
  deriving DecidableEq, Repr

/-- System state threaded through the handlers: the Ledger rows, the
channel queue contents, and a counter modelling the uuidv4 supply
(each call to uuidv4 consumes one fresh identifier). -/
structure St where
  ledger : List NotificationRecord
  queue : List QueueMessage
  nextId : Nat
  deriving DecidableEq, Repr

/-- Fresh identifier drawn from the uuid supply. -/
def freshId (n : Nat) : String := "uuid-" ++ toString n

/-- Consume one identifier from the uuid supply. -/
def consumeId (s : St) : St := { s with nextId := s.nextId + 1 }

/-- Modelled from the spec: Ledger insert of a Notification record (the
source `createNotification`, src/unnamed/part_003 lines 439-442, is a
TODO stub that only logs; the spec says the record is persisted to the
Ledger). -/
def createNotification (s : St) (r : NotificationRecord) : St :=
  { s with ledger := s.ledger ++ [r] }

/-- Modelled from the spec: publish to the channel queue (the source
`queueNotification`, src/unnamed/part_003 lines 444-447, is a TODO stub
that only logs; the spec says the message is enqueued). -/
def queueNotification (s : St) (m : QueueMessage) : St :=
  { s with queue := s.queue ++ [m] }

/-- Modelled from the spec: Ledger lookup keyed by `notification_id`
(the source `getNotificationById`, src/unnamed/part_003 lines 456-470,
is a TODO stub returning a fixed dummy row; the spec says the status
query reads the Notification record from the Ledger). -/
def ledgerLookup (s : St) (nid : String) : Option NotificationRecord :=
  s.ledger.find? (fun r => r.notification_id == nid)

/-- External collaborators of the intake handler. The source helpers
are TODO stubs standing in for calls to Redis, the user service and
the template service (src/unnamed/part_003 lines 412-437), so the
handler is translated as parameterized over their results;
`stubEnv` below gives the literal stub behaviour. -/
structure Env where
  checkExistingNotification : String → Option ExistingRecord
  getUserById : String → Option User
  getTemplateByCode : String → Option Template

/-- The literal source stubs: `checkExistingNotification` always
returns null (line 414), `getUserById` always returns a test user with
both preferences enabled (lines 418-427), `getTemplateByCode` always
returns a test template (lines 431-436). -/
def stubEnv : Env where
  checkExistingNotification := fun _ => none
  getUserById := fun uid =>
    some { user_id := uid, name := "Test User", email := "test@example.com",
           preferences := { email := true, push := true } }
  getTemplateByCode := fun c =>
    some { template_code := c, subject := "Test Template",
           content := "Hello \x7b\x7bname\x7d\x7d" }

/-- Result of the intake route: `ok notification_id status queued_at
estimated_delivery` on success, `err httpCode error` on rejection. -/
inductive IntakeResult
  | ok (notification_id : String) (status : Status) (queued_at : Int)
       (estimated_delivery : Option Int)
  | err (httpCode : Nat) (error : String)
  deriving DecidableEq, Repr

/-- Status carried by an intake response, when it is a success. -/
def IntakeResult.statusOf : IntakeResult → Option Status
  | .ok _ st _ _ => some st
  | .err _ _ => none

/-- Side effects performed by a handler, in order. -/
inductive Effect
  | createdNotification (r : NotificationRecord)
  | queuedNotification (m : QueueMessage)
  deriving DecidableEq, Repr

/-- Source function `calculateEstimatedDelivery` (src/unnamed/part_003
lines 449-454): delayMinutes = max(1, 11 - priority) * 5, and the
estimate is the current time plus that many minutes, in milliseconds
since epoch. -/
def calculateEstimatedDelivery (now priority : Int) : Int :=
  now + max 1 (11 - priority) * 5 * 60 * 1000

/-- Pending Notification record built by the intake handler
(src/unnamed/part_003 lines 156-167): fresh id, request fields,
status pending. -/
def mkPendingRecord (s : St) (req : IntakeRequest) : NotificationRecord :=
  { notification_id := freshId s.nextId
    request_id := req.request_id
    user_id := req.user_id
    notification_type := req.notification_type
    template_code := req.template_code
    vars := req.vars
    priority := req.priority
    metadata := req.metadata
    status := .pending }

/-- Queue message built by the intake handler (src/unnamed/part_003
lines 169-178). -/
def mkQueueMessage (s : St) (req : IntakeRequest) : QueueMessage :=
  { notification_id := freshId s.nextId
    notification_type := req.notification_type
    user_id := req.user_id
    template_code := req.template_code
    vars := req.vars
    priority := req.priority
    metadata := req.metadata }

/-- The POST /api/v1/notifications handler (src/unnamed/part_003 lines
75-202), translated step for step: idempotency check, user lookup
(404 on miss), preference opt-out branches returning a skipped
response with a fresh uuid and no side effect, template lookup (400 on
miss), then Ledger insert with status pending followed by the queue
publish, answering with status queued and the estimated delivery. -/
def intakeHandler (env : Env) (now : Int) (s : St) (req : IntakeRequest) :
    IntakeResult × St × List Effect :=
  match env.checkExistingNotification req.request_id with
  | some ex => (.ok ex.notification_id ex.status ex.created_at none, s, [])
  | none =>
    match env.getUserById req.user_id with
    | none => (.err 404 "User Not Found", s, [])
    | some user =>
      if req.notification_type = NType.email ∧ user.preferences.email = false then
        (.ok (freshId s.nextId) .skipped now none, consumeId s, [])
      else if req.notification_type = NType.push ∧ user.preferences.push = false then
        (.ok (freshId s.nextId) .skipped now none, consumeId s, [])
      else
        match env.getTemplateByCode req.template_code with
        | none => (.err 400 "Template Not Found", s, [])
        | some _ =>
          let r := mkPendingRecord s req
          let m := mkQueueMessage s req
          let s1 := queueNotification (createNotification (consumeId s) r) m
          (.ok r.notification_id .queued now
             (some (calculateEstimatedDelivery now req.priority)), s1,
           [Effect.createdNotification r, Effect.queuedNotification m])

/-- Body of the status webhook (gateway `notificationStatusSchema`):
the claimed status, with an optional error. -/
structure StatusUpdate where
  status : Status
  error : Option String
  deriving DecidableEq, Repr

/-- Result of the status webhook route. -/
inductive WebhookResult
  | success
  | notFound
  deriving DecidableEq, Repr

/-- Modelled from the spec: Ledger persistence of a status update (the
source `updateNotificationStatus`, src/unnamed/part_003 lines 472-481,
is a TODO stub that only logs). It writes the claimed status to the
stored row unconditionally, exactly as the update it receives from the
handler, which performs no transition validation. -/
def updateNotificationStatus (s : St) (nid : String) (u : StatusUpdate) : St :=
  { s with
    ledger := s.ledger.map (fun r =>
      if r.notification_id == nid then { r with status := u.status } else r) }

/-- The POST /api/v1/notifications/:notification_id/status handler
(src/unnamed/part_003 lines 303-338): look up the notification
(404 on miss), then apply the caller-supplied status update with no
check against the transition table, answering success. -/
def statusWebhookHandler (s : St) (nid : String) (u : StatusUpdate) :
    WebhookResult × St :=
  match ledgerLookup s nid with
  | none => (.notFound, s)
  | some _ => (.success, updateNotificationStatus s nid u)

/-- Modelled from the spec: the transition table of section 4.3. No
code in the repository implements it; it is stated here to compare the
webhook handler against it. -/
def legalTransition : Status → Status → Bool
  | .pending, .queued => true
  | .queued, .processing => true
  | .processing, .sent => true
  | .sent, .delivered => true
  | .processing, .failed => true
  | .failed, .queued => true
  | .failed, .dead_lettered => true
  | .pending, .skipped => true
  | _, _ => false

/-- Terminal statuses per spec section 4.3: delivered, dead_lettered,
skipped. -/
def isTerminal : Status → Bool
  | .delivered => true
  | .dead_lettered => true
  | .skipped => true
  | _ => false

/-- Status and retry counter of one notification as seen by the Retry
Manager. -/
structure RNotif where
  status : Status
  retry_count : Nat
  deriving DecidableEq, Repr

/-- Modelled from the spec: Retry Manager onFailure decision (section
4.4). No code in the repository implements it. Dead-letters when
retry_count has reached max_retries, with no enqueue; otherwise
increments retry_count and re-enqueues as queued. The Bool flag is
true exactly when the notification is enqueued again. -/
def onFailure (maxRetries : Nat) (n : RNotif) : RNotif × Bool :=
  if maxRetries ≤ n.retry_count then
    ({ n with status := .dead_lettered }, false)
  else
    ({ status := .queued, retry_count := n.retry_count + 1 }, true)

/-- Outcome of one worker delivery attempt. -/
inductive WorkerEvent
  | fail
  | succeed
  deriving DecidableEq, Repr

/-- Modelled from the spec: one worker outcome processed for a
notification. A notification in a terminal state gets no further
processing and is never enqueued; a failure goes to the Retry Manager;
a success delivers. The Bool flag is true exactly when the step
enqueues the notification. -/
def retryStep (maxRetries : Nat) (n : RNotif) (e : WorkerEvent) :
    RNotif × Bool :=
  if isTerminal n.status then (n, false)
  else
    match e with
    | .fail => onFailure maxRetries n
    | .succeed => ({ n with status := .delivered }, false)

/-- Fold a sequence of worker outcomes over one notification,
collecting the enqueue flags in order. -/
def runEvents (maxRetries : Nat) (n : RNotif) :
    List WorkerEvent → RNotif × List Bool
  | [] => (n, [])
  | e :: es =>
    let step := retryStep maxRetries n e
    let rest := runEvents maxRetries step.1 es
    (rest.1, step.2 :: rest.2)

/-- Retry policy configuration (spec section 4.4): base delay, maximum
delay cap, both as rationals. -/
structure RetryConfiguration where
  base : ℚ
  cap : ℚ
  deriving Repr

/-- Modelled from the spec: the scheduled retry delay (section 4.4),
base times 2 to the retry_count, capped at the configured maximum,
scaled by a jitter factor drawn from the interval from 4/5 to 6/5
(plus or minus twenty percent). -/
def retryDelay (cfg : RetryConfiguration) (retry_count : Nat) (jitter : ℚ) : ℚ :=
  min (cfg.base * 2 ^ retry_count) cfg.cap * jitter

/-- Circuit breaker modes (spec section 4.5). -/
inductive BreakerMode
  | closed
  | open_
  | half_open
  deriving DecidableEq, Repr

/-- Circuit breaker configuration: failure threshold, sliding window
length and cooldown, in milliseconds. -/
structure BreakerConfiguration where
  threshold : Nat
  windowMs : Int
  cooldownMs : Int
  deriving DecidableEq, Repr

/-- Circuit breaker state (spec section 4.5 data model): current mode,
consecutive-failure counter, start of the current failure window, and
the last mode-transition timestamp. -/
structure BreakerState where
  mode : BreakerMode
  failures : Nat
  windowStart : Int
  lastTransition : Int
  deriving DecidableEq, Repr

/-- Modelled from the spec: an open breaker moves to half_open once
the configured cooldown has elapsed since it opened. -/
def promoteToHalfOpen (cfg : BreakerConfiguration) (b : BreakerState)
    (now : Int) : BreakerState :=
  if b.mode = BreakerMode.open_ ∧ cfg.cooldownMs ≤ now - b.lastTransition then
    { b with mode := .half_open, lastTransition := now }
  else b

/-- Outcome of a breaker-wrapped call: either the channel send was
invoked (with its success flag) or the breaker short-circuited without
calling the channel. -/
inductive CallOutcome
  | invoked (ok : Bool)
  | shortCircuit
  deriving DecidableEq, Repr

/-- Modelled from the spec: one breaker-wrapped send call (section
4.5). No code in the repository implements the breaker. In closed
mode the call passes through; a success resets the consecutive-failure
counter, a failure increments it within the sliding window (the streak
restarts when the window has elapsed) and trips the breaker to open_
when the counter reaches the threshold. In open_ mode before the
cooldown the call short-circuits without invoking the send. Once the
cooldown has elapsed the breaker is promoted to half_open and the call
is the single probe: a probe success closes the breaker, a probe
failure reopens it. -/
def breakerCall (cfg : BreakerConfiguration) (b0 : BreakerState) (now : Int)
    (sendOk : Bool) : CallOutcome × BreakerState :=
  let b := promoteToHalfOpen cfg b0 now
  match b.mode with
  | .closed =>
    if sendOk then (.invoked true, { b with failures := 0 })
    else
      let restart := b.failures = 0 ∨ cfg.windowMs < now - b.windowStart
      let f := if restart then 1 else b.failures + 1
      let ws := if restart then now else b.windowStart
      if cfg.threshold ≤ f then
        (.invoked false,
         { mode := .open_, failures := f, windowStart := ws,
           lastTransition := now })
      else
        (.invoked false, { b with failures := f, windowStart := ws })
  | .open_ => (.shortCircuit, b)
  | .half_open =>
    if sendOk then
      (.invoked true,
       { mode := .closed, failures := 0, windowStart := now,
         lastTransition := now })
    else
      (.invoked false, { b with mode := .open_, lastTransition := now })

/-- A freshly constructed closed breaker. -/
def initBreaker : BreakerState :=
  { mode := .closed, failures := 0, windowStart := 0, lastTransition := 0 }

/-- Apply a sequence of breaker-wrapped calls, all at the same time,
keeping only the final state. -/
def applyCalls (cfg : BreakerConfiguration) (now : Int) (b : BreakerState) :
    List Bool → BreakerState
  | [] => b
  | ok :: rest => applyCalls cfg now (breakerCall cfg b now ok).2 rest

/-- Sample intake request: an email notification for user u1 with the
welcome template and request_id r-1, priority 5. -/
def sampleReq : IntakeRequest :=
  { notification_type := .email, user_id := "u1", template_code := "welcome",
    vars := [], request_id := "r-1", priority := 5, metadata := [] }

/-- Initial empty system state. -/
def st0 : St := { ledger := [], queue := [], nextId := 0 }

/-- A user opted out of both channels. -/
def optOutUser : User :=
  { user_id := "u1", name := "Opt Out", email := "optout@example.com",
    preferences := { email := false, push := false } }

/-- Environment whose user lookup yields `optOutUser`; the other
collaborators behave as the source stubs. -/
def optOutEnv : Env :=
  { stubEnv with getUserById := fun _ => some optOutUser }

/-- Environment whose user lookup misses. -/
def noUserEnv : Env := { stubEnv with getUserById := fun _ => none }

/-- First intake run of `sampleReq` against the literal source stubs. -/
def firstRun : IntakeResult × St × List Effect :=
  intakeHandler stubEnv 0 st0 sampleReq

/-- Second intake run of the same `sampleReq`, from the state the first
run left behind. -/
def secondRun : IntakeResult × St × List Effect :=
  intakeHandler stubEnv 0 firstRun.2.1 sampleReq

/-- A stored pending notification used to drive the status webhook. -/
def pendingRec : NotificationRecord :=
  { notification_id := "n1", request_id := "r-9", user_id := "u1",
    notification_type := .email, template_code := "welcome", vars := [],
    priority := 5, metadata := [], status := .pending }

/-- State holding only `pendingRec`. -/
def pendingSt : St := { ledger := [pendingRec], queue := [], nextId := 0 }

/-- Webhook body claiming status delivered. -/
def deliveredUpdate : StatusUpdate := { status := .delivered, error := none }

/-- Sample retry policy: base delay 1, cap 100. -/
def sampleRetryCfg : RetryConfiguration := { base := 1, cap := 100 }

/-- Sample breaker policy: threshold 3 failures, window 1000 ms,
cooldown 5000 ms. -/
def sampleBreakerCfg : BreakerConfiguration :=
  { threshold := 3, windowMs := 1000, cooldownMs := 5000 }

/-- A breaker that opened at time 0. -/
def sampleOpenBreaker : BreakerState :=
  { mode := .open_, failures := 3, windowStart := 0, lastTransition := 0 }

/-- A breaker sitting in half_open after its cooldown. -/
def sampleHalfOpenBreaker : BreakerState :=
  { mode := .half_open, failures := 3, windowStart := 0,
    lastTransition := 5000 }

/-- The user the source stub getUserById fabricates for user_id u1. -/
def stubUser : User :=
  { user_id := "u1", name := "Test User", email := "test@example.com",
    preferences := { email := true, push := true } }

/-- The template the source stub getTemplateByCode fabricates for the
welcome template code. -/
def stubTemplate : Template :=
  { template_code := "welcome", subject := "Test Template",
    content := "Hello \x7b\x7bname\x7d\x7d" }

/-- Claim C1: submitting the intake API twice with the same request_id
is claimed to create exactly one Notification, both calls returning the
same notification_id. The code violates this: checkExistingNotification
always returns null, so the second call creates a second Notification
record for request_id r-1 with a fresh notification_id and enqueues
again. -/
theorem duplicate_request_creates_two_notifications :
    stubEnv.checkExistingNotification "r-1" = none ∧
    secondRun.2.1.ledger.map (fun r => r.request_id) = ["r-1", "r-1"] ∧
    secondRun.2.1.ledger.map (fun r => r.notification_id) =
      ["uuid-0", "uuid-1"] ∧
    secondRun.2.1.queue.length = 2 ∧
    firstRun.1.statusOf = some .queued ∧
    secondRun.1.statusOf = some .queued ∧
    firstRun.1 ≠ secondRun.1 := by decide

/-- Claim C2: an inbound status update whose transition is not in the
section 4.3 table is claimed to be rejected with InvalidTransition,
leaving the stored status unchanged. The code violates this: for a
stored status pending and a webhook claiming delivered (an illegal
transition), the handler answers success and the stored status becomes
delivered. -/
theorem illegal_transition_applied_not_rejected :
    legalTransition .pending .delivered = false ∧
    (statusWebhookHandler pendingSt "n1" deliveredUpdate).1 = .success ∧
    (ledgerLookup (statusWebhookHandler pendingSt "n1" deliveredUpdate).2
        "n1").map (fun r => r.status) = some .delivered := by decide

/-- Claim C8: with a cap at least base times four, the delays scheduled
at retry counts 0, 1 and 2 lie within the twenty percent jitter bounds
of base times 2 to the n, and are non-decreasing across the three
consecutive failures whatever jitters are drawn. -/
theorem backoff_delay_within_jitter_and_nondecreasing
    (cfg : RetryConfiguration) (j0 j1 j2 : ℚ)
    (hbase : 0 < cfg.base) (hcap : cfg.base * 2 ^ 2 ≤ cfg.cap)
    (h00 : 4/5 ≤ j0) (h01 : j0 ≤ 6/5)
    (h10 : 4/5 ≤ j1) (h11 : j1 ≤ 6/5)
    (h20 : 4/5 ≤ j2) (h21 : j2 ≤ 6/5) :
    (cfg.base * 2 ^ 0 * (4/5) ≤ retryDelay cfg 0 j0 ∧
       retryDelay cfg 0 j0 ≤ cfg.base * 2 ^ 0 * (6/5)) ∧
    (cfg.base * 2 ^ 1 * (4/5) ≤ retryDelay cfg 1 j1 ∧
       retryDelay cfg 1 j1 ≤ cfg.base * 2 ^ 1 * (6/5)) ∧
    (cfg.base * 2 ^ 2 * (4/5) ≤ retryDelay cfg 2 j2 ∧
       retryDelay cfg 2 j2 ≤ cfg.base * 2 ^ 2 * (6/5)) ∧
    retryDelay cfg 0 j0 ≤ retryDelay cfg 1 j1 ∧
    retryDelay cfg 1 j1 ≤ retryDelay cfg 2 j2 := by
  norm_num at hcap
  have hb : (0 : ℚ) ≤ cfg.base := le_of_lt hbase
  have m0 : min (cfg.base * 2 ^ (0 : ℕ)) cfg.cap = cfg.base * 2 ^ (0 : ℕ) := by
    apply min_eq_left
    norm_num
    linarith
  have m1 : min (cfg.base * 2 ^ (1 : ℕ)) cfg.cap = cfg.base * 2 ^ (1 : ℕ) := by
    apply min_eq_left
    norm_num
    linarith
  have m2 : min (cfg.base * 2 ^ (2 : ℕ)) cfg.cap = cfg.base * 2 ^ (2 : ℕ) := by
    apply min_eq_left
    norm_num
    linarith
  unfold retryDelay
  rw [m0, m1, m2]
  norm_num
  refine ⟨⟨?_, ?_⟩, ⟨?_, ?_⟩, ⟨?_, ?_⟩, ?_, ?_⟩ <;>
    nlinarith [mul_le_mul_of_nonneg_left h00 hb,
      mul_le_mul_of_nonneg_left h01 hb,
      mul_le_mul_of_nonneg_left h10 hb,
      mul_le_mul_of_nonneg_left h11 hb,
      mul_le_mul_of_nonneg_left h20 hb,
      mul_le_mul_of_nonneg_left h21 hb]

/-- Witness for C8 with base 1, cap 100 and all jitters 1. -/
theorem backoff_delay_within_jitter_and_nondecreasing_witness :
    (sampleRetryCfg.base * 2 ^ 0 * (4/5) ≤ retryDelay sampleRetryCfg 0 1 ∧
       retryDelay sampleRetryCfg 0 1 ≤ sampleRetryCfg.base * 2 ^ 0 * (6/5)) ∧
    (sampleRetryCfg.base * 2 ^ 1 * (4/5) ≤ retryDelay sampleRetryCfg 1 1 ∧
       retryDelay sampleRetryCfg 1 1 ≤ sampleRetryCfg.base * 2 ^ 1 * (6/5)) ∧
    (sampleRetryCfg.base * 2 ^ 2 * (4/5) ≤ retryDelay sampleRetryCfg 2 1 ∧
       retryDelay sampleRetryCfg 2 1 ≤ sampleRetryCfg.base * 2 ^ 2 * (6/5)) ∧
    retryDelay sampleRetryCfg 0 1 ≤ retryDelay sampleRetryCfg 1 1 ∧
    retryDelay sampleRetryCfg 1 1 ≤ retryDelay sampleRetryCfg 2 1 :=
  backoff_delay_within_jitter_and_nondecreasing sampleRetryCfg 1 1 1
    (by norm_num [sampleRetryCfg]) (by norm_num [sampleRetryCfg])
    (by norm_num) (by norm_num) (by norm_num) (by norm_num)
    (by norm_num) (by norm_num)

/-- One retry step keeps the retry counter within the bound. -/
theorem retryStep_count_le (maxRetries : Nat) (n : RNotif) (e : WorkerEvent)
    (h : n.retry_count ≤ maxRetries) :
    (retryStep maxRetries n e).1.retry_count ≤ maxRetries := by
  unfold retryStep onFailure
  by_cases ht : isTerminal n.status = true
  · simp [ht, h]
  · cases e
    · by_cases hm : maxRetries ≤ n.retry_count
      · simp [ht, hm, h]
      · simp [ht, hm]
        omega
    · simp [ht, h]

/-- A dead-lettered notification is left untouched and is never
enqueued by a retry step. -/
theorem retryStep_dead_lettered_fixed (maxRetries : Nat) (n : RNotif)
    (e : WorkerEvent) (h : n.status = .dead_lettered) :
    retryStep maxRetries n e = (n, false) := by
  unfold retryStep
  simp [h, isTerminal]

/-- Claim C3: over any sequence of worker outcomes, retry_count never
exceeds max_retries; a dead-lettered notification stays dead-lettered
and is never enqueued again; and a failure at the retry limit
dead-letters the notification without enqueueing. -/
theorem retry_count_never_exceeds_max
    (maxRetries : Nat) (n d m : RNotif) (es es2 : List WorkerEvent)
    (hn : n.retry_count ≤ maxRetries)
    (hd : d.status = .dead_lettered)
    (hm1 : isTerminal m.status = false)
    (hm2 : m.retry_count = maxRetries) :
    (runEvents maxRetries n es).1.retry_count ≤ maxRetries ∧
    (runEvents maxRetries d es2).1 = d ∧
    ((runEvents maxRetries d es2).2.all fun q => !q) = true ∧
    retryStep maxRetries m .fail =
      ({ m with status := .dead_lettered }, false) := by
  refine ⟨?_, ?_, ?_, ?_⟩
  · induction es generalizing n with
    | nil => exact hn
    | cons e es ih =>
      simp only [runEvents]
      exact ih _ (retryStep_count_le maxRetries n e hn)
  · induction es2 with
    | nil => rfl
    | cons e es ih =>
      simp only [runEvents, retryStep_dead_lettered_fixed maxRetries d e hd]
      exact ih
  · induction es2 with
    | nil => rfl
    | cons e es ih =>
      simp only [runEvents, retryStep_dead_lettered_fixed maxRetries d e hd,
        List.all_cons]
      simpa using ih
  · unfold retryStep onFailure
    simp [hm1, hm2]

/-- Witness for C3: max_retries 3, five consecutive failures from a
fresh queued notification, a dead-lettered notification fed more
events, and a failure at the limit. -/
theorem retry_count_never_exceeds_max_witness :
    (runEvents 3 { status := .queued, retry_count := 0 }
       [.fail, .fail, .fail, .fail, .fail]).1.retry_count ≤ 3 ∧
    (runEvents 3 { status := .dead_lettered, retry_count := 3 }
       [.fail, .succeed]).1
      = { status := .dead_lettered, retry_count := 3 } ∧
    ((runEvents 3 { status := .dead_lettered, retry_count := 3 }
       [.fail, .succeed]).2.all fun q => !q) = true ∧
    retryStep 3 { status := .failed, retry_count := 3 } .fail =
      ({ status := .dead_lettered, retry_count := 3 }, false) :=
  retry_count_never_exceeds_max 3
    { status := .queued, retry_count := 0 }
    { status := .dead_lettered, retry_count := 3 }
    { status := .failed, retry_count := 3 }
    [.fail, .fail, .fail, .fail, .fail] [.fail, .succeed]
    (by decide) (by decide) (by decide) (by decide)

/-- A call against an open breaker before the cooldown short-circuits
without invoking the channel send and leaves the breaker unchanged. -/
theorem breakerCall_open_shortCircuit (cfg : BreakerConfiguration)
    (b : BreakerState) (now : Int) (ok : Bool)
    (hO : b.mode = .open_)
    (hEarly : now - b.lastTransition < cfg.cooldownMs) :
    breakerCall cfg b now ok = (.shortCircuit, b) := by
  unfold breakerCall promoteToHalfOpen
  have hnot : ¬(b.mode = BreakerMode.open_ ∧
      cfg.cooldownMs ≤ now - b.lastTransition) := by
    rintro ⟨-, h⟩
    omega
  rw [if_neg hnot]
  simp [hO]

/-- A call against a half_open breaker is the probe: the send is
invoked, a success closes the breaker, a failure reopens it: either
way half_open is left, so no second probe is possible. -/
theorem breakerCall_half_open_probe (cfg : BreakerConfiguration)
    (b : BreakerState) (now : Int) (ok : Bool)
    (hH : b.mode = .half_open) :
    (breakerCall cfg b now ok).1 = .invoked ok ∧
    (breakerCall cfg b now ok).2.mode
      = (if ok then BreakerMode.closed else .open_) := by
  unfold breakerCall promoteToHalfOpen
  have hnot : ¬(b.mode = BreakerMode.open_ ∧
      cfg.cooldownMs ≤ now - b.lastTransition) := by
    rintro ⟨h, -⟩
    rw [hH] at h
    exact BreakerMode.noConfusion h
  rw [if_neg hnot]
  cases ok <;> simp [hH]

/-- A call against an open breaker once the cooldown has elapsed is
promoted to the half_open probe. -/
theorem breakerCall_cooldown_probe (cfg : BreakerConfiguration)
    (b : BreakerState) (now : Int) (ok : Bool)
    (hO : b.mode = .open_)
    (hLate : cfg.cooldownMs ≤ now - b.lastTransition) :
    (breakerCall cfg b now ok).1 = .invoked ok ∧
    (breakerCall cfg b now ok).2.mode
      = (if ok then BreakerMode.closed else .open_) := by
  unfold breakerCall promoteToHalfOpen
  rw [if_pos ⟨hO, hLate⟩]
  cases ok <;> simp

/-- A failing call against a closed breaker whose failure streak
restarts (no prior failure, or window elapsed) counts one failure and
opens the breaker exactly when the threshold is one. -/
theorem breakerCall_closed_fail_restart (cfg : BreakerConfiguration)
    (b : BreakerState) (now : Int)
    (hm : b.mode = .closed)
    (hrest : b.failures = 0 ∨ cfg.windowMs < now - b.windowStart) :
    breakerCall cfg b now false =
      (.invoked false,
       if cfg.threshold ≤ 1 then
         { mode := .open_, failures := 1, windowStart := now,
           lastTransition := now }
       else { b with failures := 1, windowStart := now }) := by
  unfold breakerCall promoteToHalfOpen
  have hnot : ¬(b.mode = BreakerMode.open_ ∧
      cfg.cooldownMs ≤ now - b.lastTransition) := by
    rintro ⟨h, -⟩
    rw [hm] at h
    exact BreakerMode.noConfusion h
  rw [if_neg hnot]
  simp [hm, hrest]
  split <;> rfl

/-- A failing call against a closed breaker with a live failure streak
within the window increments the counter and opens the breaker exactly
when the counter reaches the threshold. -/
theorem breakerCall_closed_fail_within (cfg : BreakerConfiguration)
    (b : BreakerState) (now : Int)
    (hm : b.mode = .closed)
    (hf : ¬ b.failures = 0)
    (hwin : ¬ cfg.windowMs < now - b.windowStart) :
    breakerCall cfg b now false =
      (.invoked false,
       if cfg.threshold ≤ b.failures + 1 then
         { mode := .open_, failures := b.failures + 1,
           windowStart := b.windowStart, lastTransition := now }
       else { b with failures := b.failures + 1 }) := by
  unfold breakerCall promoteToHalfOpen
  have hnot : ¬(b.mode = BreakerMode.open_ ∧
      cfg.cooldownMs ≤ now - b.lastTransition) := by
    rintro ⟨h, -⟩
    rw [hm] at h
    exact BreakerMode.noConfusion h
  rw [if_neg hnot]
  simp [hm, hf, hwin]
  split <;> rfl

/-- An open breaker fed only failing calls at the moment it opened
stays exactly as it is (every call short-circuits). -/
theorem applyCalls_open_fixed (cfg : BreakerConfiguration) (t : Int)
    (hcool : 0 < cfg.cooldownMs) (b : BreakerState)
    (hmode : b.mode = .open_) (hlast : b.lastTransition = t) :
    ∀ k, applyCalls cfg t b (List.replicate k false) = b := by
  intro k
  induction k with
  | zero => rfl
  | succ k ih =>
    have hstep : breakerCall cfg b t false = (.shortCircuit, b) :=
      breakerCall_open_shortCircuit cfg b t false hmode (by omega)
    rw [List.replicate_succ]
    simp only [applyCalls, hstep]
    exact ih

/-- From a closed breaker whose streak either has not started or
started at time t, enough failing calls at time t reach the threshold
and leave the breaker open. -/
theorem applyCalls_failures_open (cfg : BreakerConfiguration) (t : Int)
    (hwin : 0 ≤ cfg.windowMs) (hcool : 0 < cfg.cooldownMs) :
    ∀ (k : Nat) (b : BreakerState), b.mode = .closed →
      (b.failures = 0 ∨ b.windowStart = t) →
      b.failures < cfg.threshold →
      cfg.threshold ≤ b.failures + k →
      (applyCalls cfg t b (List.replicate k false)).mode = .open_ := by
  intro k
  induction k with
  | zero =>
    intro b hm hw hlt hle
    omega
  | succ k ih =>
    intro b hm hw hlt hle
    rw [List.replicate_succ]
    simp only [applyCalls]
    by_cases hrest : b.failures = 0 ∨ cfg.windowMs < t - b.windowStart
    · have hf0 : b.failures = 0 := by
        rcases hrest with h | h
        · exact h
        · rcases hw with h2 | h2
          · exact h2
          · rw [h2] at h
            omega
      have hs : (breakerCall cfg b t false).2 =
          (if cfg.threshold ≤ 1 then
            { mode := .open_, failures := 1, windowStart := t,
              lastTransition := t }
          else { b with failures := 1, windowStart := t }) := by
        rw [breakerCall_closed_fail_restart cfg b t hm hrest]
      rw [hs]
      by_cases hth : cfg.threshold ≤ 1
      · rw [if_pos hth]
        rw [applyCalls_open_fixed cfg t hcool _ rfl rfl k]
      · rw [if_neg hth]
        exact ih _ hm (Or.inr rfl) (show 1 < cfg.threshold by omega)
          (show cfg.threshold ≤ 1 + k by omega)
    · push_neg at hrest
      obtain ⟨hf, hwlt⟩ := hrest
      have hws : b.windowStart = t := by
        rcases hw with h2 | h2
        · exact absurd h2 hf
        · exact h2
      have hs : (breakerCall cfg b t false).2 =
          (if cfg.threshold ≤ b.failures + 1 then
            { mode := .open_, failures := b.failures + 1,
              windowStart := b.windowStart, lastTransition := t }
          else { b with failures := b.failures + 1 }) := by
        rw [breakerCall_closed_fail_within cfg b t hm hf (by omega)]
      rw [hs]
      by_cases hth : cfg.threshold ≤ b.failures + 1
      · rw [if_pos hth]
        rw [applyCalls_open_fixed cfg t hcool _ rfl rfl k]
      · rw [if_neg hth]
        exact ih _ hm (Or.inr hws)
          (show b.failures + 1 < cfg.threshold by omega)
          (show cfg.threshold ≤ b.failures + 1 + k by omega)

/-- Claim C4: the circuit breaker opens after threshold consecutive
failures within the window; while open and before the cooldown a call
short-circuits without invoking the channel send; once the cooldown
elapses the breaker moves to half_open where the single probe is
invoked, a probe success closes the breaker and a probe failure
reopens it, and either way half_open is left so only one probe is
possible. -/
theorem circuit_breaker_transitions
    (cfg : BreakerConfiguration) (k : Nat) (t nowEarly nowLate : Int)
    (bOpen bHalf : BreakerState) (probeOk : Bool)
    (hwin : 0 ≤ cfg.windowMs) (hcool : 0 < cfg.cooldownMs)
    (hthr : 1 ≤ cfg.threshold) (hk : cfg.threshold ≤ k)
    (hO : bOpen.mode = .open_)
    (hEarly : nowEarly - bOpen.lastTransition < cfg.cooldownMs)
    (hLate : cfg.cooldownMs ≤ nowLate - bOpen.lastTransition)
    (hH : bHalf.mode = .half_open) :
    (applyCalls cfg t initBreaker (List.replicate k false)).mode
      = .open_ ∧
    breakerCall cfg bOpen nowEarly probeOk = (.shortCircuit, bOpen) ∧
    (promoteToHalfOpen cfg bOpen nowLate).mode = .half_open ∧
    (breakerCall cfg bOpen nowLate true).1 = .invoked true ∧
    (breakerCall cfg bOpen nowLate true).2.mode = .closed ∧
    (breakerCall cfg bOpen nowLate false).1 = .invoked false ∧
    (breakerCall cfg bOpen nowLate false).2.mode = .open_ ∧
    (breakerCall cfg bOpen nowLate probeOk).2.mode ≠ .half_open ∧
    (breakerCall cfg bHalf nowLate probeOk).1 = .invoked probeOk ∧
    (breakerCall cfg bHalf nowLate probeOk).2.mode ≠ .half_open := by
  refine ⟨?_, ?_, ?_, ?_, ?_, ?_, ?_, ?_, ?_, ?_⟩
  · exact applyCalls_failures_open cfg t hwin hcool k initBreaker rfl
      (Or.inl rfl) (by simpa [initBreaker] using hthr) (by simpa [initBreaker])
  · exact breakerCall_open_shortCircuit cfg bOpen nowEarly probeOk hO hEarly
  · unfold promoteToHalfOpen
    rw [if_pos ⟨hO, hLate⟩]
  · exact (breakerCall_cooldown_probe cfg bOpen nowLate true hO hLate).1
  · simpa using (breakerCall_cooldown_probe cfg bOpen nowLate true hO hLate).2
  · exact (breakerCall_cooldown_probe cfg bOpen nowLate false hO hLate).1
  · simpa using (breakerCall_cooldown_probe cfg bOpen nowLate false hO hLate).2
  · have h2 := (breakerCall_cooldown_probe cfg bOpen nowLate probeOk hO hLate).2
    rw [h2]
    cases probeOk <;> simp
  · exact (breakerCall_half_open_probe cfg bHalf nowLate probeOk hH).1
  · have h2 := (breakerCall_half_open_probe cfg bHalf nowLate probeOk hH).2
    rw [h2]
    cases probeOk <;> simp

/-- Witness for C4 with the sample breaker policy: three failures open
the breaker, a call at time 10 short-circuits, the cooldown elapses at
time 5000 and the probe behaves as stated. -/
theorem circuit_breaker_transitions_witness :
    (applyCalls sampleBreakerCfg 0 initBreaker
       (List.replicate 3 false)).mode = .open_ ∧
    breakerCall sampleBreakerCfg sampleOpenBreaker 10 true
      = (.shortCircuit, sampleOpenBreaker) ∧
    (promoteToHalfOpen sampleBreakerCfg sampleOpenBreaker 5000).mode
      = .half_open ∧
    (breakerCall sampleBreakerCfg sampleOpenBreaker 5000 true).1
      = .invoked true ∧
    (breakerCall sampleBreakerCfg sampleOpenBreaker 5000 true).2.mode
      = .closed ∧
    (breakerCall sampleBreakerCfg sampleOpenBreaker 5000 false).1
      = .invoked false ∧
    (breakerCall sampleBreakerCfg sampleOpenBreaker 5000 false).2.mode
      = .open_ ∧
    (breakerCall sampleBreakerCfg sampleOpenBreaker 5000 true).2.mode
      ≠ .half_open ∧
    (breakerCall sampleBreakerCfg sampleHalfOpenBreaker 5000 true).1
      = .invoked true ∧
    (breakerCall sampleBreakerCfg sampleHalfOpenBreaker 5000 true).2.mode
      ≠ .half_open :=
  circuit_breaker_transitions sampleBreakerCfg 3 0 10 5000
    sampleOpenBreaker sampleHalfOpenBreaker true
    (by decide) (by decide) (by decide) (by decide) (by decide)
    (by decide) (by decide) (by decide)

/-- Claim C7, counterexample: the claim says the status returned to
the intake caller equals the stored status at the time of the
response; but a concrete accepted intake run returns status queued
while the stored record still holds status pending. -/
theorem intake_reports_queued_while_stored_pending :
    firstRun.1.statusOf = some .queued ∧
    (ledgerLookup firstRun.2.1 "uuid-0").map (fun r => r.status)
      = some .pending ∧
    some Status.queued ≠ some Status.pending := by decide

/-- Claim C7 as amended: an accepted intake inserts the Notification
into the Ledger with status pending before enqueueing the queue
message (the creation effect precedes the enqueue effect), but the
response reports status queued while the stored status remains
pending: no pending-to-queued transition is recorded at intake. -/
theorem accepted_intake_inserts_pending_before_enqueue
    (env : Env) (now : Int) (s : St) (req : IntakeRequest) (user : User)
    (tmpl : Template)
    (hidem : env.checkExistingNotification req.request_id = none)
    (huser : env.getUserById req.user_id = some user)
    (h1 : ¬(req.notification_type = NType.email ∧
              user.preferences.email = false))
    (h2 : ¬(req.notification_type = NType.push ∧
              user.preferences.push = false))
    (htmpl : env.getTemplateByCode req.template_code = some tmpl)
    (hfresh : ∀ r ∈ s.ledger, r.notification_id ≠ freshId s.nextId) :
    intakeHandler env now s req =
      (.ok (mkPendingRecord s req).notification_id .queued now
         (some (calculateEstimatedDelivery now req.priority)),
       queueNotification (createNotification (consumeId s)
         (mkPendingRecord s req)) (mkQueueMessage s req),
       [Effect.createdNotification (mkPendingRecord s req),
        Effect.queuedNotification (mkQueueMessage s req)]) ∧
    (mkPendingRecord s req).status = .pending ∧
    ledgerLookup (intakeHandler env now s req).2.1
      (mkPendingRecord s req).notification_id
      = some (mkPendingRecord s req) ∧
    (intakeHandler env now s req).1.statusOf = some .queued ∧
    Status.queued ≠ Status.pending := by
  have hmain : intakeHandler env now s req =
      (.ok (mkPendingRecord s req).notification_id .queued now
         (some (calculateEstimatedDelivery now req.priority)),
       queueNotification (createNotification (consumeId s)
         (mkPendingRecord s req)) (mkQueueMessage s req),
       [Effect.createdNotification (mkPendingRecord s req),
        Effect.queuedNotification (mkQueueMessage s req)]) := by
    simp [intakeHandler, hidem, huser, h1, h2, htmpl]
  have hnone : s.ledger.find?
      (fun x => x.notification_id == (mkPendingRecord s req).notification_id)
      = none := by
    rw [List.find?_eq_none]
    intro x hx
    simpa [mkPendingRecord] using hfresh x hx
  refine ⟨hmain, rfl, ?_, ?_, by decide⟩
  · rw [hmain]
    simp [ledgerLookup, queueNotification, createNotification, consumeId,
      hnone]
  · rw [hmain]
    rfl

/-- Witness for the amended C7 against the literal source stubs. -/
theorem accepted_intake_inserts_pending_before_enqueue_witness :
    intakeHandler stubEnv 0 st0 sampleReq =
      (.ok (mkPendingRecord st0 sampleReq).notification_id .queued 0
         (some (calculateEstimatedDelivery 0 sampleReq.priority)),
       queueNotification (createNotification (consumeId st0)
         (mkPendingRecord st0 sampleReq)) (mkQueueMessage st0 sampleReq),
       [Effect.createdNotification (mkPendingRecord st0 sampleReq),
        Effect.queuedNotification (mkQueueMessage st0 sampleReq)]) ∧
    (mkPendingRecord st0 sampleReq).status = .pending ∧
    ledgerLookup (intakeHandler stubEnv 0 st0 sampleReq).2.1
      (mkPendingRecord st0 sampleReq).notification_id
      = some (mkPendingRecord st0 sampleReq) ∧
    (intakeHandler stubEnv 0 st0 sampleReq).1.statusOf = some .queued ∧
    Status.queued ≠ Status.pending :=
  accepted_intake_inserts_pending_before_enqueue stubEnv 0 st0 sampleReq
    stubUser stubTemplate (by decide) (by decide) (by decide) (by decide)
    (by decide) (by decide)

/-- Claim C10: for priorities between 1 and 10, the estimated delivery
returned by intake is the current time plus max(1, 11 - priority) times
5 minutes, a strictly higher priority yields a strictly earlier
estimate, and the estimate lies between 5 and 50 minutes after the
call. -/
theorem estimated_delivery_formula_monotone_bounded
    (now p q : Int) (hp1 : 1 ≤ p) (hp10 : p ≤ 10) (hq10 : q ≤ 10)
    (hpq : p < q) :
    calculateEstimatedDelivery now p = now + (11 - p) * 5 * 60 * 1000 ∧
    calculateEstimatedDelivery now q < calculateEstimatedDelivery now p ∧
    now + 5 * 60 * 1000 ≤ calculateEstimatedDelivery now p ∧
    calculateEstimatedDelivery now p ≤ now + 50 * 60 * 1000 := by
  unfold calculateEstimatedDelivery
  have h1 : (1 : Int) ≤ 11 - p := by omega
  have h2 : (1 : Int) ≤ 11 - q := by omega
  rw [max_eq_right h1, max_eq_right h2]
  refine ⟨rfl, ?_, ?_, ?_⟩ <;> omega

/-- Claim C5: an intake whose user has opted out of the requested
channel ends in the terminal status skipped, with no enqueue to the
channel queue and no Ledger insert. -/
theorem preference_optout_ends_skipped_nothing_enqueued
    (env : Env) (now : Int) (s : St) (req : IntakeRequest) (user : User)
    (hidem : env.checkExistingNotification req.request_id = none)
    (huser : env.getUserById req.user_id = some user)
    (hopt : (req.notification_type = NType.email ∧
               user.preferences.email = false) ∨
            (req.notification_type = NType.push ∧
               user.preferences.push = false)) :
    intakeHandler env now s req =
      (.ok (freshId s.nextId) .skipped now none, consumeId s, []) ∧
    isTerminal .skipped = true ∧
    (intakeHandler env now s req).2.1.queue = s.queue ∧
    (intakeHandler env now s req).2.1.ledger = s.ledger := by
  have hmain : intakeHandler env now s req =
      (.ok (freshId s.nextId) .skipped now none, consumeId s, []) := by
    rcases hopt with ⟨h1, h2⟩ | ⟨h1, h2⟩
    · simp [intakeHandler, hidem, huser, h1, h2]
    · by_cases hfirst : req.notification_type = NType.email ∧
          user.preferences.email = false
      · simp [intakeHandler, hidem, huser, hfirst.1, hfirst.2]
      · simp [intakeHandler, hidem, huser, hfirst, h1, h2]
  refine ⟨hmain, rfl, ?_, ?_⟩ <;> rw [hmain] <;> rfl

/-- Witness for C5: an email intake against the opt-out environment is
skipped and leaves queue and ledger empty. -/
theorem preference_optout_ends_skipped_nothing_enqueued_witness :
    intakeHandler optOutEnv 0 st0 sampleReq =
      (.ok (freshId st0.nextId) .skipped 0 none, consumeId st0, []) ∧
    isTerminal .skipped = true ∧
    (intakeHandler optOutEnv 0 st0 sampleReq).2.1.queue = st0.queue ∧
    (intakeHandler optOutEnv 0 st0 sampleReq).2.1.ledger = st0.ledger :=
  preference_optout_ends_skipped_nothing_enqueued optOutEnv 0 st0 sampleReq
    optOutUser (by decide) (by decide) (Or.inl (by decide))

/-- Claim C6: an intake whose user lookup or template lookup fails is
rejected with a Not Found error and performs no side effect: the state
is unchanged (no Notification record, nothing enqueued) and no effect
is emitted. The user branch answers 404, the template branch 400. -/
theorem lookup_failure_rejected_without_side_effect
    (env : Env) (now : Int) (s : St) (req : IntakeRequest)
    (hidem : env.checkExistingNotification req.request_id = none)
    (hcase : env.getUserById req.user_id = none ∨
      ∃ user, env.getUserById req.user_id = some user ∧
        ¬(req.notification_type = NType.email ∧
            user.preferences.email = false) ∧
        ¬(req.notification_type = NType.push ∧
            user.preferences.push = false) ∧
        env.getTemplateByCode req.template_code = none) :
    intakeHandler env now s req = (.err 404 "User Not Found", s, []) ∨
    intakeHandler env now s req = (.err 400 "Template Not Found", s, []) := by
  rcases hcase with huser | ⟨user, huser, h1, h2, htmpl⟩
  · exact Or.inl (by simp [intakeHandler, hidem, huser])
  · exact Or.inr (by simp [intakeHandler, hidem, huser, h1, h2, htmpl])

/-- Witness for C6: with a missing user the intake answers 404 User
Not Found and the state is untouched. -/
theorem lookup_failure_rejected_without_side_effect_witness :
    intakeHandler noUserEnv 0 st0 sampleReq =
      (.err 404 "User Not Found", st0, []) ∨
    intakeHandler noUserEnv 0 st0 sampleReq =
      (.err 400 "Template Not Found", st0, []) :=
  lookup_failure_rejected_without_side_effect noUserEnv 0 st0 sampleReq
    (by decide) (Or.inl (by decide))

/-- Claim C9: a skipped intake creates or modifies no state: the ledger
and the queue are untouched, the returned notification_id is freshly
drawn from the uuid supply, and a status query for that id afterwards
finds nothing. -/
theorem skipped_intake_leaves_no_trace
    (env : Env) (now : Int) (s : St) (req : IntakeRequest) (user : User)
    (hidem : env.checkExistingNotification req.request_id = none)
    (huser : env.getUserById req.user_id = some user)
    (hopt : (req.notification_type = NType.email ∧
               user.preferences.email = false) ∨
            (req.notification_type = NType.push ∧
               user.preferences.push = false))
    (hfresh : ∀ r ∈ s.ledger, r.notification_id ≠ freshId s.nextId) :
    intakeHandler env now s req =
      (.ok (freshId s.nextId) .skipped now none, consumeId s, []) ∧
    (consumeId s).ledger = s.ledger ∧
    (consumeId s).queue = s.queue ∧
    ledgerLookup (intakeHandler env now s req).2.1 (freshId s.nextId)
      = none := by
  have hmain : intakeHandler env now s req =
      (.ok (freshId s.nextId) .skipped now none, consumeId s, []) := by
    rcases hopt with ⟨h1, h2⟩ | ⟨h1, h2⟩
    · simp [intakeHandler, hidem, huser, h1, h2]
    · by_cases hfirst : req.notification_type = NType.email ∧
          user.preferences.email = false
      · simp [intakeHandler, hidem, huser, hfirst.1, hfirst.2]
      · simp [intakeHandler, hidem, huser, hfirst, h1, h2]
  refine ⟨hmain, rfl, rfl, ?_⟩
  rw [hmain]
  simp only [ledgerLookup, consumeId, List.find?_eq_none]
  intro r hr
  simpa using hfresh r hr

/-- Witness for C9 in the opt-out environment from the empty state. -/
theorem skipped_intake_leaves_no_trace_witness :
    intakeHandler optOutEnv 0 st0 sampleReq =
      (.ok (freshId st0.nextId) .skipped 0 none, consumeId st0, []) ∧
    (consumeId st0).ledger = st0.ledger ∧
    (consumeId st0).queue = st0.queue ∧
    ledgerLookup (intakeHandler optOutEnv 0 st0 sampleReq).2.1
      (freshId st0.nextId) = none :=
  skipped_intake_leaves_no_trace optOutEnv 0 st0 sampleReq optOutUser
    (by decide) (by decide) (Or.inl (by decide)) (by decide)

/-- Witness for C10 at now 0, priorities 3 and 7. -/
theorem estimated_delivery_formula_monotone_bounded_witness :
    calculateEstimatedDelivery 0 3 = 0 + (11 - 3) * 5 * 60 * 1000 ∧
    calculateEstimatedDelivery 0 7 < calculateEstimatedDelivery 0 3 ∧
    0 + 5 * 60 * 1000 ≤ calculateEstimatedDelivery 0 3 ∧
    calculateEstimatedDelivery 0 3 ≤ 0 + 50 * 60 * 1000 :=
  estimated_delivery_formula_monotone_bounded 0 3 7 (by decide) (by decide)
    (by decide) (by decide)

end Notif
